import Mathlib

/-!
# grafana-cli repository client

A shallow embedding of `pkg/cmd/grafana-cli/services/api_client.go`:
`handleResponse`, `sendRequest`, `sendRequestGetBytes`, `GetPlugin` and
`DownloadFile`, followed by the properties of the specification that are
settled against it.

Conventions of the embedding

* A Go `error` is a value of `GoError`; the `nil` error is `none`.
* A Go function that may panic returns an `Exec`: either it returns normally
  (`Exec.ret`) or it leaves through a panic carrying a value (`Exec.fault`).
* `[]byte` is `List Nat` (each element a byte); Go `string`s that hold text
  are Lean `String`s.
* Everything the code obtains from outside the process (the network, the
  file system, the behaviour of the destination file) is read from an
  explicit environment `Env`; the mutable state (`client.retryCount`, the
  destination file, the number of requests sent) is threaded as a `World`.
* `DownloadFile` calls itself from its deferred recovery function, with no
  bound that could serve as a termination measure, so it takes a fuel
  argument: `none` means the fuel ran out before the call returned.
-/

namespace Grafana

/-! ## Errors, panics, results -/

/-- Modelled from the spec: the declarations of `ErrNotFoundError` and
`BadRequestError`, which the package keeps outside api_client.go.  The spec
calls the first "a distinguished not found signal" and the second "a
structured 4xx error carrying the HTTP status" and a message; the code uses
the first as a sentinel value and builds the second from its two fields
`Message` and `Status`.

The other error values of api_client.go: `errorf` is an error made by
`errors.New` or by `fmt.Errorf` without `%w`; `wrapf msg inner` is an error
made with `%w`, rendered as `msg: inner` and unwrapping to `inner`. -/
inductive GoError where
  | errorf (msg : String)
  | wrapf (msg : String) (inner : GoError)
  | ErrNotFoundError
  | BadRequestError (Message : String) (Status : String)
  deriving DecidableEq, Repr

/-- The value a panic carries; `text` is what `fmt.Sprintf("%v", r)` renders,
`tag` tells apart values that render alike. -/
structure PanicValue where
  text : String
  tag : Nat
  deriving DecidableEq, Repr

/-- Outcome of running a Go function: normal return or panic. -/
inductive Exec (α : Type) where
  | ret (a : α)
  | fault (r : PanicValue)
  deriving DecidableEq, Repr

/-- Equality of results of type `Except` is decidable. -/
instance decEqExcept {ε α : Type} [DecidableEq ε] [DecidableEq α] : DecidableEq (Except ε α)
  | .ok a, .ok b =>
    if h : a = b then isTrue (congrArg Except.ok h) else isFalse (fun h' => h (Except.ok.inj h'))
  | .error a, .error b =>
    if h : a = b then isTrue (congrArg Except.error h)
    else isFalse (fun h' => h (Except.error.inj h'))
  | .ok _, .error _ => isFalse (fun h => Except.noConfusion h)
  | .error _, .ok _ => isFalse (fun h => Except.noConfusion h)

/-- Go's `errors.Is(err, target)` for a non-nil `err`: `err` or an error in
its `%w` chain equals `target`. -/
def errors.Is : GoError → GoError → Bool
  | .wrapf m inner, target => decide (GoError.wrapf m inner = target) || errors.Is inner target
  | e, target => decide (e = target)

/-- Modelled from the spec: `errutil.Wrap` of pkg/util/errutil, which is not
among the sources.  The spec says errors "are wrapped with a human-readable
stage description ... but the underlying error is preserved for inspection";
a nil error stays nil. -/
def errutil.Wrap (message : String) (err : Option GoError) : Option GoError :=
  err.map (GoError.wrapf message)

/-! ## HTTP responses -/

/-- How a stream ends once its data has been read: end of file, a read
error, or a panic raised inside the reader. -/
inductive StreamEnd where
  | eof
  | err (e : GoError)
  | fault (r : PanicValue)
  deriving DecidableEq, Repr

/-- An `io.ReadCloser`: the bytes it yields and how it ends. -/
structure ReadCloser where
  data : List Nat
  ending : StreamEnd
  deriving DecidableEq, Repr

/-- The fields of `http.Response` that the code reads. -/
structure Response where
  StatusCode : Int
  Status : String
  Body : ReadCloser
  deriving DecidableEq, Repr

/-- Result of `json.Unmarshal(body, &jsonBody)` with `jsonBody` a
`map[string]string`: `none` for a non-nil error, else the decoded map.  The
decoder is the standard library's and is a parameter of the embedding. -/
abbrev JsonUnmarshal := List Nat → Option (List (String × String))

/-- The conversion `string(body)` of a byte slice, one character per byte. -/
def goString (body : List Nat) : String :=
  String.mk (body.map Char.ofNat)

/-- The bytes of a text, the inverse view of `goString` on ASCII text. -/
def goBytes (s : String) : List Nat :=
  s.data.map Char.toNat

/-- `ioutil.ReadAll(r)`: the bytes read and the error, if not end of file. -/
def ioutil.ReadAll (r : ReadCloser) : Exec (List Nat × Option GoError) :=
  match r.ending with
  | .eof => .ret (r.data, none)
  | .err e => .ret (r.data, some e)
  | .fault p => .fault p

/-- `jsonBody["message"]`: the empty string when the key is absent. -/
def messageOf (jsonBody : List (String × String)) : String :=
  (jsonBody.lookup "message").getD ""

/-- `handleResponse` (api_client.go 176-207).  The Go result pair
`(io.ReadCloser, error)` always has exactly one non-nil component, so it is an
`Except`: `.error e` is `(nil, e)` and `.ok body` is `(body, nil)`.
`StatusCode/100` is Go's truncating integer division. -/
def handleResponse (unmarshal : JsonUnmarshal) (res : Response) :
    Exec (Except GoError ReadCloser) :=
  if res.StatusCode = 404 then
    .ret (.error .ErrNotFoundError)
  else if res.StatusCode.tdiv 100 ≠ 2 ∧ res.StatusCode.tdiv 100 ≠ 4 then
    .ret (.error (.errorf ("API returned invalid status: " ++ res.Status)))
  else if res.StatusCode.tdiv 100 = 4 then
    match ioutil.ReadAll res.Body with
    | .fault p => .fault p
    | .ret (body, err) =>
      if err.isSome ∨ body.length = 0 then
        .ret (.error (.BadRequestError "" res.Status))
      else
        match unmarshal body with
        | none => .ret (.error (.BadRequestError (goString body) res.Status))
        | some jsonBody =>
          if (messageOf jsonBody).length = 0 then
            .ret (.error (.BadRequestError (goString body) res.Status))
          else
            .ret (.error (.BadRequestError (messageOf jsonBody) res.Status))
  else
    .ret (.ok res.Body)

/-- `sendRequest` (api_client.go 148-174).  `sent` is the outcome of lines
149-171 (`url.Parse`, `path.Join`, `http.NewRequest`, `client.Do`): an error
or the response received. -/
def sendRequest (unmarshal : JsonUnmarshal) (sent : Except GoError Response) :
    Exec (Except GoError ReadCloser) :=
  match sent with
  | .error e => .ret (.error e)
  | .ok res => handleResponse unmarshal res

/-- `sendRequestGetBytes` (api_client.go 135-146); closing the stream only
logs. -/
def sendRequestGetBytes (unmarshal : JsonUnmarshal) (sent : Except GoError Response) :
    Exec (List Nat × Option GoError) :=
  match sendRequest unmarshal sent with
  | .fault p => .fault p
  | .ret (.error e) => .ret ([], some e)
  | .ret (.ok bodyReader) => ioutil.ReadAll bodyReader

/-- The network as `GetPlugin` sees it: the outcome of requesting the
repository URL joined with the sub-paths. -/
abbrev Network := String → List String → Except GoError Response

/-- `GetPlugin` (api_client.go 26-43).  `P` is `models.Plugin`, `zero` its
zero value `models.Plugin{}` and `decode` is `json.Unmarshal(body, &data)`. -/
def GetPlugin {P : Type} (zero : P) (unmarshal : JsonUnmarshal)
    (decode : List Nat → Except GoError P) (net : Network)
    (pluginID repoURL : String) : Exec (P × Option GoError) :=
  match sendRequestGetBytes unmarshal (net repoURL ["repo", pluginID]) with
  | .fault p => .fault p
  | .ret (_, some err) =>
    if errors.Is err .ErrNotFoundError then
      .ret (zero, errutil.Wrap
        "failed to find requested plugin, check if the plugin ID is correct" (some err))
    else
      .ret (zero, errutil.Wrap "failed to send request" (some err))
  | .ret (body, none) =>
    match decode body with
    | .error e => .ret (zero, some e)
    | .ok data => .ret (data, none)

/-! ## MD5 and hexadecimal rendering

`crypto/md5` and the `%x` verb belong to the Go standard library; they are
written out (RFC 1321) so that the checksum comparison can be evaluated on
concrete archives.  Words are naturals reduced modulo `2^32`. -/

/-- Per-round left-rotation amounts. -/
def md5.shifts : List Nat :=
  [7, 12, 17, 22, 7, 12, 17, 22, 7, 12, 17, 22, 7, 12, 17, 22,
   5, 9, 14, 20, 5, 9, 14, 20, 5, 9, 14, 20, 5, 9, 14, 20,
   4, 11, 16, 23, 4, 11, 16, 23, 4, 11, 16, 23, 4, 11, 16, 23,
   6, 10, 15, 21, 6, 10, 15, 21, 6, 10, 15, 21, 6, 10, 15, 21]

/-- The sine table: entry `i` is `floor(2^32 * |sin (i + 1)|)`. -/
def md5.table : List Nat :=
  [3614090360, 3905402710, 606105819, 3250441966, 4118548399, 1200080426, 2821735955, 4249261313,
   1770035416, 2336552879, 4294925233, 2304563134, 1804603682, 4254626195, 2792965006, 1236535329,
   4129170786, 3225465664, 643717713, 3921069994, 3593408605, 38016083, 3634488961, 3889429448,
   568446438, 3275163606, 4107603335, 1163531501, 2850285829, 4243563512, 1735328473, 2368359562,
   4294588738, 2272392833, 1839030562, 4259657740, 2763975236, 1272893353, 4139469664, 3200236656,
   681279174, 3936430074, 3572445317, 76029189, 3654602809, 3873151461, 530742520, 3299628645,
   4096336452, 1126891415, 2878612391, 4237533241, 1700485571, 2399980690, 4293915773, 2240044497,
   1873313359, 4264355552, 2734768916, 1309151649, 4149444226, 3174756917, 718787259, 3951481745]

/-- Reduction to a 32-bit word. -/
def md5.w32 (x : Nat) : Nat := x % 4294967296

/-- Left rotation of a 32-bit word by `c` bits, `0 < c < 32`. -/
def md5.rotl (x c : Nat) : Nat :=
  md5.w32 (x <<< c) ||| (md5.w32 x >>> (32 - c))

/-- The little-endian 32-bit word made of the first four bytes of `bs`. -/
def md5.leWord (bs : List Nat) : Nat :=
  bs.getD 0 0 % 256 + 256 * (bs.getD 1 0 % 256) + 65536 * (bs.getD 2 0 % 256)
    + 16777216 * (bs.getD 3 0 % 256)

/-- The `k` low bytes of `n`, least significant first. -/
def md5.leBytes (n : Nat) : Nat → List Nat
  | 0 => []
  | k + 1 => n % 256 :: md5.leBytes (n / 256) k

/-- The sixteen message words of a 64-byte block. -/
def md5.words (block : List Nat) : List Nat :=
  (List.range 16).map fun j => md5.leWord (block.drop (4 * j))

/-- The four chaining words. -/
structure md5.Digest where
  a : Nat
  b : Nat
  c : Nat
  d : Nat

/-- Step `i` (of 64) of the compression function over message words `m`. -/
def md5.step (m : List Nat) (s : md5.Digest) (i : Nat) : md5.Digest :=
  let nb := 4294967295 - s.b
  let nd := 4294967295 - s.d
  let fg : Nat × Nat :=
    if i < 16 then ((s.b &&& s.c) ||| (nb &&& s.d), i)
    else if i < 32 then ((s.d &&& s.b) ||| (nd &&& s.c), (5 * i + 1) % 16)
    else if i < 48 then (s.b ^^^ s.c ^^^ s.d, (3 * i + 5) % 16)
    else (s.c ^^^ (s.b ||| nd), (7 * i) % 16)
  let f := md5.w32 (fg.1 + s.a + md5.table.getD i 0 + m.getD fg.2 0)
  { a := s.d, d := s.c, c := s.b, b := md5.w32 (s.b + md5.rotl f (md5.shifts.getD i 0)) }

/-- The compression function on one 64-byte block. -/
def md5.block (s : md5.Digest) (blk : List Nat) : md5.Digest :=
  let t := (List.range 64).foldl (md5.step (md5.words blk)) s
  { a := md5.w32 (s.a + t.a), b := md5.w32 (s.b + t.b),
    c := md5.w32 (s.c + t.c), d := md5.w32 (s.d + t.d) }

/-- Padding: a `0x80` byte, zeros up to 56 modulo 64, then the bit length as
eight little-endian bytes. -/
def md5.pad (msg : List Nat) : List Nat :=
  msg ++ 128 :: List.replicate ((119 - msg.length % 64) % 64) 0
    ++ md5.leBytes ((8 * msg.length) % 18446744073709551616) 8

/-- Runs the compression function over `n` consecutive blocks. -/
def md5.blocks : Nat → md5.Digest → List Nat → md5.Digest
  | 0, s, _ => s
  | n + 1, s, bs => md5.blocks n (md5.block s (bs.take 64)) (bs.drop 64)

/-- The 16-byte MD5 digest of `msg`: what `h.Sum(nil)` returns once `msg` has
been written to `h := md5.New()`. -/
def md5.Sum (msg : List Nat) : List Nat :=
  let p := md5.pad msg
  let s := md5.blocks (p.length / 64) ⟨1732584193, 4023233417, 2562383102, 271733878⟩ p
  md5.leBytes s.a 4 ++ md5.leBytes s.b 4 ++ md5.leBytes s.c 4 ++ md5.leBytes s.d 4

/-- One lowercase hexadecimal digit. -/
def hexDigit (n : Nat) : Char :=
  "0123456789abcdef".data.getD n '0'

/-- The rendering `fmt.Sprintf("%x", bs)` of a byte slice: two lowercase
hexadecimal digits per byte. -/
def hex (bs : List Nat) : String :=
  String.mk (bs.flatMap fun b => [hexDigit (b % 256 / 16), hexDigit (b % 16)])

/-! ## The destination file -/

/-- The destination `tmpFile *os.File`: its name, its content and the offset
at which the next write lands. -/
structure TmpFile where
  name : String
  content : List Nat
  offset : Nat
  deriving DecidableEq, Repr

/-- Writing `bs` at the current offset: the bytes replace what was there,
the file grows as needed (a gap is filled with zeros), the offset advances. -/
def TmpFile.Write (f : TmpFile) (bs : List Nat) : TmpFile :=
  { f with
    content := f.content.take f.offset ++ List.replicate (f.offset - f.content.length) 0
      ++ bs ++ f.content.drop (f.offset + bs.length)
    offset := f.offset + bs.length }

/-- The effect of a successful `tmpFile.Truncate(size)`; the offset stays. -/
def TmpFile.Truncate (f : TmpFile) (size : Nat) : TmpFile :=
  { f with content := f.content.take size ++ List.replicate (size - f.content.length) 0 }

/-- The effect of a successful `tmpFile.Seek(offset, 0)`. -/
def TmpFile.Seek (f : TmpFile) (offset : Nat) : TmpFile :=
  { f with offset := offset }

/-! ## The environment of a download -/

/-- A path for which `os.Stat` succeeds: whether `os.Open` fails, the bytes of
the file, and whether `io.Copy(tmpFile, f)` fails, after how many bytes have
reached the destination. -/
structure LocalFile where
  openErr : Option GoError
  data : List Nat
  copyErr : Option (Nat × GoError)

/-- What happens outside the code during one pass through lines 92-114.
`sent` is the outcome of sending the request.  When the copy is cut short
(by a failing write, a read error or a panic in the reader) `reached` bytes
of the body have reached the file.  `writeErr` is a failure of the
destination during `io.Copy`, `flushErr` one during `w.Flush()`;
`truncateErr` and `seekErr` are failures of `tmpFile.Truncate(0)` and
`tmpFile.Seek(0, 0)` in the recovery that follows a panic of this pass. -/
structure Attempt where
  sent : Except GoError Response
  reached : Nat
  writeErr : Option GoError
  flushErr : Option GoError
  truncateErr : Option GoError
  seekErr : Option GoError

/-- Everything `DownloadFile` reads from outside: the JSON decoder, the file
system (`none`: `os.Stat` returns an error) and what each successive request
meets. -/
structure Env where
  unmarshal : JsonUnmarshal
  stat : String → Option LocalFile
  attempts : Nat → Attempt

/-- The mutable state: `client.retryCount`, the destination file, and the
number of calls of `sendRequest` made so far. -/
structure World where
  retryCount : Nat
  tmpFile : TmpFile
  requests : Nat
  deriving DecidableEq, Repr

/-! ## DownloadFile -/

/-- The rendering `%q` of a file name without characters to escape. -/
def quoted (s : String) : String :=
  "\"" ++ s ++ "\""

/-- Lines 47-60: the source is a local path.  Returns the result and the
destination file. -/
def copyLocal (lf : LocalFile) (tmpFile : TmpFile) : Exec (Option GoError) × TmpFile :=
  match lf.openErr with
  | some e => (.ret (errutil.Wrap "failed to read plugin archive" (some e)), tmpFile)
  | none =>
    match lf.copyErr with
    | some (n, e) =>
      (.ret (errutil.Wrap "failed to copy plugin archive" (some e)), tmpFile.Write (lf.data.take n))
    | none => (.ret none, tmpFile.Write lf.data)

/-- Lines 102-114: copy the body to the file through the MD5 hash, flush,
compare the checksum. -/
def copyAndVerify (a : Attempt) (bodyReader : ReadCloser) (tmpFile : TmpFile)
    (checksum : String) : Exec (Option GoError) × TmpFile :=
  let cut := tmpFile.Write (bodyReader.data.take a.reached)
  match a.writeErr with
  | some e => (.ret (errutil.Wrap "failed to compute MD5 checksum" (some e)), cut)
  | none =>
    match bodyReader.ending with
    | .err e => (.ret (errutil.Wrap "failed to compute MD5 checksum" (some e)), cut)
    | .fault r => (.fault r, cut)
    | .eof =>
      match a.flushErr with
      | some e => (.ret (some (.wrapf ("failed to write to " ++ quoted tmpFile.name) e)), cut)
      | none =>
        if 0 < checksum.length ∧ checksum ≠ hex (md5.Sum bodyReader.data) then
          (.ret (some (.errorf
            "expected MD5 checksum does not match the downloaded archive - please contact security@grafana.com")),
            tmpFile.Write bodyReader.data)
        else
          (.ret none, tmpFile.Write bodyReader.data)

/-- Lines 92-114: one pass of the remote download, before the deferred
recovery runs. -/
def fetchOnce (unmarshal : JsonUnmarshal) (a : Attempt) (tmpFile : TmpFile)
    (checksum : String) : Exec (Option GoError) × TmpFile :=
  match sendRequest unmarshal a.sent with
  | .fault r => (.fault r, tmpFile)
  | .ret (.error e) => (.ret (errutil.Wrap "failed to send request" (some e)), tmpFile)
  | .ret (.ok bodyReader) => copyAndVerify a bodyReader tmpFile checksum

/-- `DownloadFile` (api_client.go 45-115) with `fuel` bounding the depth of
the calls it makes to itself from the deferred function.  The result is the
named result `err`, or the panic that leaves the call, with the final state.

Lines 62-88: `client.retryCount = 0` runs on every entry; the deferred
function recovers a panic `r` of the pass, increments the counter and, below
3, truncates, rewinds and calls `DownloadFile` again, assigning its result to
`err`; otherwise it resets the counter and either sets the corruption error
or panics again with `r`. -/
def DownloadFile (env : Env) (url checksum : String) :
    Nat → World → Option (Exec (Option GoError) × World)
  | 0, _ => none
  | fuel + 1, w =>
    match env.stat url with
    | some lf =>
      some ((copyLocal lf w.tmpFile).1, { w with tmpFile := (copyLocal lf w.tmpFile).2 })
    | none =>
      -- line 62
      let w1 : World := { w with retryCount := 0 }
      -- lines 92-114
      let a := env.attempts w1.requests
      let pass := fetchOnce env.unmarshal a w1.tmpFile checksum
      let w2 : World := { w1 with tmpFile := pass.2, requests := w1.requests + 1 }
      match pass.1 with
      | .ret err => some (.ret err, w2)
      | .fault r =>
        -- lines 64-88, the deferred function with `recover() = r`
        let w3 : World := { w2 with retryCount := w2.retryCount + 1 }
        if w3.retryCount < 3 then
          match a.truncateErr with
          | some e => some (.ret (some e), w3)
          | none =>
            let w4 : World := { w3 with tmpFile := w3.tmpFile.Truncate 0 }
            match a.seekErr with
            | some e => some (.ret (some e), w4)
            | none =>
              DownloadFile env url checksum fuel { w4 with tmpFile := w4.tmpFile.Seek 0 }
        else
          let w4 : World := { w3 with retryCount := 0 }
          if r.text = "runtime error: makeslice: len out of range" then
            some (.ret (some (.errorf "corrupt HTTP response from source, please try again")), w4)
          else
            some (.fault r, w4)

/-! ## Predicates on the environment, used to state the properties -/

/-- The pass through lines 92-114 that meets `a` is cut by a panic with
value `r`: the panic is raised inside `sendRequest` (reading the body of a 4xx
answer), or inside the reader while the body of a successful answer is being
copied. -/
def Attempt.Panics (unmarshal : JsonUnmarshal) (a : Attempt) (r : PanicValue) : Prop :=
  match sendRequest unmarshal a.sent with
  | .fault p => p = r
  | .ret (.error _) => False
  | .ret (.ok bodyReader) => a.writeErr = none ∧ bodyReader.ending = .fault r

/-- Whether a pass is cut by a given panic can be computed. -/
instance Attempt.decPanics (unmarshal : JsonUnmarshal) (a : Attempt) (r : PanicValue) :
    Decidable (a.Panics unmarshal r) := by
  unfold Attempt.Panics
  split <;> infer_instance

/-- The pass that meets `a` streams `body` to its end: the request yields a
stream holding `body` up to end of file, the copy and the flush succeed. -/
def Attempt.Completes (unmarshal : JsonUnmarshal) (a : Attempt) (body : List Nat) : Prop :=
  sendRequest unmarshal a.sent = .ret (.ok { data := body, ending := .eof }) ∧
    a.writeErr = none ∧ a.flushErr = none

/-- Whether a pass streams a given body to its end can be computed. -/
instance Attempt.decCompletes (unmarshal : JsonUnmarshal) (a : Attempt) (body : List Nat) :
    Decidable (a.Completes unmarshal body) := by
  unfold Attempt.Completes
  infer_instance

/-- Truncating and rewinding the destination succeed in the recovery that
follows the pass meeting `a`. -/
def Attempt.Resets (a : Attempt) : Prop :=
  a.truncateErr = none ∧ a.seekErr = none

/-- Whether the destination can be reset can be computed. -/
instance Attempt.decResets (a : Attempt) : Decidable a.Resets := by
  unfold Attempt.Resets
  infer_instance

/-! ## Concrete scenarios -/

/-- The panic value of the buffer-size fault. -/
def makeslice : PanicValue :=
  { text := "runtime error: makeslice: len out of range", tag := 0 }

/-- Another runtime fault. -/
def indexFault : PanicValue :=
  { text := "runtime error: index out of range [5] with length 3", tag := 1 }

/-- An empty zip archive: the end-of-central-directory record alone. -/
def emptyZip : List Nat :=
  [80, 75, 5, 6, 0, 0, 0, 0, 0, 0, 0, 0, 0, 0, 0, 0, 0, 0, 0, 0, 0, 0]

/-- A request answered `200 OK` with `body`, streamed and written in full. -/
def Attempt.clean (body : List Nat) : Attempt :=
  { sent := .ok { StatusCode := 200, Status := "200 OK", Body := { data := body, ending := .eof } }
    reached := 0, writeErr := none, flushErr := none, truncateErr := none, seekErr := none }

/-- A request answered `200 OK` whose body reader panics with `r` after
`body`, when `reached` bytes have been written; the destination can be
truncated and rewound afterwards. -/
def Attempt.broken (body : List Nat) (reached : Nat) (r : PanicValue) : Attempt :=
  { sent := .ok { StatusCode := 200, Status := "200 OK", Body := { data := body, ending := .fault r } }
    reached := reached, writeErr := none, flushErr := none, truncateErr := none, seekErr := none }

/-- A JSON decoder that rejects every body. -/
def rejectAll : JsonUnmarshal := fun _ => none

/-- No local file; the first `n` requests break with `r` after two bytes of
a four-byte body have been written, every later request is clean and serves
`body`. -/
def envBrokenThenClean (n : Nat) (r : PanicValue) (body : List Nat) : Env :=
  { unmarshal := rejectAll
    stat := fun _ => none
    attempts := fun i => if i < n then Attempt.broken [1, 2, 3, 4] 2 r else Attempt.clean body }

/-- No local file; every request breaks with the buffer-size fault. -/
def envAlwaysBroken : Env :=
  { unmarshal := rejectAll
    stat := fun _ => none
    attempts := fun _ => Attempt.broken [1, 2, 3, 4] 2 makeslice }

/-- A client that has not downloaded yet and an empty destination file. -/
def freshWorld : World :=
  { retryCount := 0, tmpFile := { name := "grafana-plugin.zip", content := [], offset := 0 },
    requests := 0 }

/-- A stand-in for `json.Unmarshal` into a `map[string]string` that knows the
decoding of two bodies, the objects with the single member `message` holding
the empty string and holding `Invalid version`, and rejects every other
body. -/
def decodeKnown : JsonUnmarshal := fun body =>
  if body = goBytes "\x7b\"message\": \"\"\x7d" then some [("message", "")]
  else if body = goBytes "\x7b\"message\": \"Invalid version\"\x7d" then
    some [("message", "Invalid version")]
  else none

/-- An answer with the given status and a body that is read to its end. -/
def answer (code : Int) (status : String) (body : String) : Response :=
  { StatusCode := code, Status := status, Body := { data := goBytes body, ending := .eof } }

/-- A registry that knows the single plugin `grafana-clock-panel` and answers
404 for every other request. -/
def registry : Network := fun _ subPaths =>
  if subPaths = ["repo", "grafana-clock-panel"] then
    .ok (answer 200 "200 OK" "\x7b\"id\": \"grafana-clock-panel\"\x7d")
  else
    .ok (answer 404 "404 Not Found" "Not Found")

/-- A network on which no request goes through. -/
def unreachable : Network := fun _ _ =>
  .error (.errorf "dial tcp: lookup grafana.com: no such host")

/-- The path `/tmp/grafana-clock-panel.zip` names a readable local file
holding an empty zip archive; no other path exists; every request would be
answered with the two bytes `9, 8`. -/
def envLocalArchive : Env :=
  { unmarshal := rejectAll
    stat := fun path =>
      if path = "/tmp/grafana-clock-panel.zip" then
        some { openErr := none, data := emptyZip, copyErr := none }
      else none
    attempts := fun _ => Attempt.clean [9, 8] }

/-! ## Response4xxError (pkg/plugins/repository/models.go) -/

/-- The rendering `fmt.Sprintf("%d", n)` of an integer: its decimal digits,
preceded by a minus sign when it is negative. -/
def fmtDecimal : Int → String
  | .ofNat m => Nat.repr m
  | .negSucc m => "-" ++ Nat.repr (m + 1)

/-- `Response4xxError` (models.go 64-68). -/
structure Response4xxError where
  Message : String
  StatusCode : Int
  SystemInfo : String
  deriving DecidableEq, Repr

/-- `Response4xxError.Error` (models.go 70-78); `len(s) > 0` tests that the
string is not empty. -/
def Response4xxError.Error (e : Response4xxError) : String :=
  if 0 < e.Message.length then
    if 0 < e.SystemInfo.length then
      e.Message ++ " (" ++ e.SystemInfo ++ ")"
    else
      fmtDecimal e.StatusCode ++ ": " ++ e.Message
  else
    fmtDecimal e.StatusCode

/-- A stand-in for `json.Unmarshal` into a `map[string]string` that knows the
decoding of one body, the object with the single member `error` holding
`denied` (it has no member `message`), and rejects every other body. -/
def decodeNoMessage : JsonUnmarshal := fun body =>
  if body = goBytes "\x7b\"error\": \"denied\"\x7d" then some [("error", "denied")]
  else none

/-- A registry that answers every request with `500 Internal Server Error`
and an empty body. -/
def registryDown : Network := fun _ _ =>
  .ok (answer 500 "500 Internal Server Error" "")

/-- A registry that answers every request with `403 Forbidden` and a
plain-text body. -/
def registryForbidden : Network := fun _ _ =>
  .ok (answer 403 "403 Forbidden" "access denied")

/-! ## Auxiliary facts -/

theorem tdiv_hundred_eq_two (x : Int) : x.tdiv 100 = 2 ↔ 200 ≤ x ∧ x ≤ 299 := by
  rcases le_or_lt 0 x with h | h
  · rw [Int.tdiv_eq_ediv h (by decide)]; omega
  · have h1 : (-x).tdiv 100 = (-x) / 100 := Int.tdiv_eq_ediv (by omega) (by decide)
    have h2 : x.tdiv 100 = -((-x) / 100) := by
      rw [← h1, Int.neg_tdiv, neg_neg]
    rw [h2]; omega

theorem tdiv_hundred_eq_four (x : Int) : x.tdiv 100 = 4 ↔ 400 ≤ x ∧ x ≤ 499 := by
  rcases le_or_lt 0 x with h | h
  · rw [Int.tdiv_eq_ediv h (by decide)]; omega
  · have h1 : (-x).tdiv 100 = (-x) / 100 := Int.tdiv_eq_ediv (by omega) (by decide)
    have h2 : x.tdiv 100 = -((-x) / 100) := by
      rw [← h1, Int.neg_tdiv, neg_neg]
    rw [h2]; omega

theorem TmpFile.Write_name (f : TmpFile) (bs : List Nat) : (f.Write bs).name = f.name := rfl

theorem copyAndVerify_name (a : Attempt) (b : ReadCloser) (f : TmpFile) (c : String) :
    (copyAndVerify a b f c).2.name = f.name := by
  unfold copyAndVerify
  repeat' split
  all_goals rfl

theorem fetchOnce_name (u : JsonUnmarshal) (a : Attempt) (f : TmpFile) (c : String) :
    (fetchOnce u a f c).2.name = f.name := by
  unfold fetchOnce
  split
  · rfl
  · rfl
  · exact copyAndVerify_name _ _ _ _

theorem fetchOnce_of_panics {u : JsonUnmarshal} {a : Attempt} {r : PanicValue}
    (h : a.Panics u r) (f : TmpFile) (c : String) : (fetchOnce u a f c).1 = .fault r := by
  unfold Attempt.Panics at h
  unfold fetchOnce
  split at h
  · rename_i hs
    simp [hs, h]
  · exact h.elim
  · rename_i hs
    simp [hs, copyAndVerify, h.1, h.2]

/-- One recovered pass: the call continues as a fresh call on the truncated
and rewound file, one request later. -/
theorem DownloadFile_recover_step (env : Env) (url checksum : String) (fuel : Nat) (w : World)
    (r : PanicValue) (hstat : env.stat url = none)
    (hp : (env.attempts w.requests).Panics env.unmarshal r)
    (hr : (env.attempts w.requests).Resets) :
    DownloadFile env url checksum (fuel + 1) w =
      DownloadFile env url checksum fuel
        { retryCount := 1, tmpFile := { name := w.tmpFile.name, content := [], offset := 0 },
          requests := w.requests + 1 } := by
  have h1 := fetchOnce_of_panics hp w.tmpFile checksum
  have h2 := fetchOnce_name env.unmarshal (env.attempts w.requests) w.tmpFile checksum
  rw [DownloadFile]
  simp only [hstat, h1, hr.1, hr.2]
  simp [TmpFile.Truncate, TmpFile.Seek, h2]

/-- When every request breaks and every reset succeeds, no amount of fuel
lets the call return. -/
theorem DownloadFile_never_returns (env : Env) (url checksum : String)
    (hstat : env.stat url = none)
    (hall : ∀ i, ∃ r, (env.attempts i).Panics env.unmarshal r ∧ (env.attempts i).Resets) :
    ∀ fuel w, DownloadFile env url checksum fuel w = none := by
  intro fuel
  induction fuel with
  | zero => intro w; rfl
  | succ n ih =>
    intro w
    obtain ⟨r, hp, hr⟩ := hall w.requests
    rw [DownloadFile_recover_step env url checksum n w r hstat hp hr]
    exact ih _

theorem length_pos_iff_ne_empty (s : String) : 0 < s.length ↔ s ≠ "" := by
  cases s with
  | mk l =>
    cases l with
    | nil => simp
    | cons c cs =>
      constructor
      · intro _ h
        have := congrArg String.length h
        simp at this
      · intro _
        simp

theorem TmpFile.Write_fresh (n : String) (bs : List Nat) :
    TmpFile.Write { name := n, content := [], offset := 0 } bs
      = { name := n, content := bs, offset := bs.length } := by
  simp [TmpFile.Write]

/-- A pass that streams `body` to its end writes it and returns the verdict
of the checksum comparison of line 110. -/
theorem fetchOnce_of_completes {u : JsonUnmarshal} {a : Attempt} {body : List Nat}
    (h : a.Completes u body) (f : TmpFile) (c : String) :
    fetchOnce u a f c =
      (if c ≠ "" ∧ c ≠ hex (md5.Sum body) then
          .ret (some (.errorf
            "expected MD5 checksum does not match the downloaded archive - please contact security@grafana.com"))
        else .ret none,
        f.Write body) := by
  obtain ⟨hs, hw, hf⟩ := h
  simp only [fetchOnce, hs, copyAndVerify, hw, hf, length_pos_iff_ne_empty]
  split <;> rfl

/-- A call whose first pass streams `body` to its end returns after that
pass. -/
theorem DownloadFile_of_completes (env : Env) (url checksum : String) (fuel : Nat) (w : World)
    (body : List Nat) (hstat : env.stat url = none)
    (hc : (env.attempts w.requests).Completes env.unmarshal body) :
    DownloadFile env url checksum (fuel + 1) w =
      some (if checksum ≠ "" ∧ checksum ≠ hex (md5.Sum body) then
          .ret (some (.errorf
            "expected MD5 checksum does not match the downloaded archive - please contact security@grafana.com"))
        else .ret none,
        { retryCount := 0, tmpFile := w.tmpFile.Write body, requests := w.requests + 1 }) := by
  have h := fetchOnce_of_completes hc w.tmpFile checksum
  rw [DownloadFile]
  by_cases hm : checksum ≠ "" ∧ checksum ≠ hex (md5.Sum body)
  · rw [if_pos hm] at h ⊢
    simp only [hstat, h]
  · rw [if_neg hm] at h ⊢
    simp only [hstat, h]

/-- A run of `k + 1` recovered passes: the call continues as a fresh call on
the emptied destination, `k + 1` requests later. -/
theorem DownloadFile_recover_chain (env : Env) (url checksum : String)
    (hstat : env.stat url = none) (fuel : Nat) :
    ∀ (k : Nat) (w : World),
      (∀ i, i < k + 1 → ∃ r, (env.attempts (w.requests + i)).Panics env.unmarshal r ∧
        (env.attempts (w.requests + i)).Resets) →
      DownloadFile env url checksum (fuel + (k + 1)) w =
        DownloadFile env url checksum fuel
          { retryCount := 1, tmpFile := { name := w.tmpFile.name, content := [], offset := 0 },
            requests := w.requests + (k + 1) } := by
  intro k
  induction k with
  | zero =>
    intro w h
    obtain ⟨r, hp, hr⟩ := h 0 (by omega)
    exact DownloadFile_recover_step env url checksum fuel w r hstat hp hr
  | succ k ih =>
    intro w h
    obtain ⟨r, hp, hr⟩ := h 0 (by omega)
    have e1 : fuel + (k + 1 + 1) = (fuel + (k + 1)) + 1 := by omega
    rw [e1, DownloadFile_recover_step env url checksum _ w r hstat hp hr, ih]
    · have e2 : w.requests + 1 + (k + 1) = w.requests + (k + 1 + 1) := by omega
      simp only [e2]
    · intro i hi
      have e3 : w.requests + 1 + i = w.requests + (i + 1) := by omega
      simp only [e3]
      exact h (i + 1) (by omega)

/-- A pass cut by a panic, after which truncating the destination fails: the
call returns that error. -/
theorem DownloadFile_truncate_fails (env : Env) (url checksum : String) (fuel : Nat)
    (w : World) (r : PanicValue) (e : GoError) (hstat : env.stat url = none)
    (hp : (env.attempts w.requests).Panics env.unmarshal r)
    (ht : (env.attempts w.requests).truncateErr = some e) :
    DownloadFile env url checksum (fuel + 1) w =
      some (.ret (some e),
        { retryCount := 1
          tmpFile := (fetchOnce env.unmarshal (env.attempts w.requests) w.tmpFile checksum).2
          requests := w.requests + 1 }) := by
  have h1 := fetchOnce_of_panics hp w.tmpFile checksum
  rw [DownloadFile]
  simp [hstat, h1, ht]

/-- A pass cut by a panic, after which the destination is truncated but
cannot be rewound: the call returns that error. -/
theorem DownloadFile_seek_fails (env : Env) (url checksum : String) (fuel : Nat)
    (w : World) (r : PanicValue) (e : GoError) (hstat : env.stat url = none)
    (hp : (env.attempts w.requests).Panics env.unmarshal r)
    (ht : (env.attempts w.requests).truncateErr = none)
    (hs : (env.attempts w.requests).seekErr = some e) :
    DownloadFile env url checksum (fuel + 1) w =
      some (.ret (some e),
        { retryCount := 1
          tmpFile :=
            (fetchOnce env.unmarshal (env.attempts w.requests) w.tmpFile checksum).2.Truncate 0
          requests := w.requests + 1 }) := by
  have h1 := fetchOnce_of_panics hp w.tmpFile checksum
  rw [DownloadFile]
  simp [hstat, h1, ht, hs]

/-- A pass that returns without error has streamed the whole body of the
answer to the destination. -/
theorem fetchOnce_returns_nil {u : JsonUnmarshal} {a : Attempt} {f g : TmpFile} {c : String}
    (h : fetchOnce u a f c = (.ret none, g)) :
    ∃ body, a.Completes u body ∧ g = f.Write body := by
  unfold fetchOnce at h
  split at h
  · simp at h
  · simp [errutil.Wrap] at h
  · rename_i bodyReader hs
    unfold copyAndVerify at h
    split at h
    · simp [errutil.Wrap] at h
    · rename_i hw
      split at h
      · simp [errutil.Wrap] at h
      · simp at h
      · rename_i he
        split at h
        · simp at h
        · rename_i hfl
          split at h
          · simp at h
          · refine ⟨bodyReader.data, ⟨?_, hw, hfl⟩, ?_⟩
            · rw [hs]
              cases bodyReader
              simp_all
            · simp at h
              exact h.symm

/-- The shape of a successful remote call: either its first pass streamed a
body to the end, or an earlier pass was recovered and the destination holds
exactly the body streamed by the last pass. -/
theorem DownloadFile_success_shape (env : Env) (url checksum : String)
    (hstat : env.stat url = none) :
    ∀ (fuel : Nat) (w W : World),
      DownloadFile env url checksum fuel w = some (.ret none, W) →
      (W.requests = w.requests + 1 ∧
        ∃ body, (env.attempts w.requests).Completes env.unmarshal body ∧
          W.tmpFile = w.tmpFile.Write body) ∨
      (w.requests + 2 ≤ W.requests ∧
        ∃ body, (env.attempts (W.requests - 1)).Completes env.unmarshal body ∧
          W.tmpFile = { name := w.tmpFile.name, content := body, offset := body.length }) := by
  intro fuel
  induction fuel with
  | zero => intro w W h; simp [DownloadFile] at h
  | succ n ih =>
    intro w W h
    rw [DownloadFile] at h
    simp only [hstat] at h
    generalize hpass : fetchOnce env.unmarshal (env.attempts w.requests) w.tmpFile checksum
      = pass at h
    obtain ⟨res, g⟩ := pass
    cases res with
    | ret err =>
      simp only [Option.some.injEq, Prod.mk.injEq, Exec.ret.injEq] at h
      obtain ⟨herr, hW⟩ := h
      subst herr
      obtain ⟨body, hc, hg⟩ := fetchOnce_returns_nil hpass
      left
      subst hW
      exact ⟨rfl, body, hc, hg⟩
    | fault r =>
      have hname : g.name = w.tmpFile.name := by
        have := fetchOnce_name env.unmarshal (env.attempts w.requests) w.tmpFile checksum
        rw [hpass] at this
        exact this
      simp only [Nat.zero_add, Nat.one_lt_ofNat, if_true] at h
      split at h
      · simp at h
      · split at h
        · simp at h
        · right
          rcases ih _ _ h with ⟨h1, body, hc, hf⟩ | ⟨h1, body, hc, hf⟩
          · simp only at h1 hc hf
            refine ⟨by omega, body, ?_, ?_⟩
            · have e : W.requests - 1 = w.requests + 1 := by omega
              rw [e]; exact hc
            · rw [hf]
              simp [TmpFile.Write, TmpFile.Truncate, TmpFile.Seek, hname]
          · simp only at h1 hc hf
            refine ⟨by omega, body, hc, ?_⟩
            rw [hf]
            simp [TmpFile.Truncate, TmpFile.Seek, hname]

/-- On a response whose status is not 404, an error returned by
`handleResponse` is not the not-found sentinel and does not wrap it. -/
theorem handleResponse_error_not_sentinel (u : JsonUnmarshal) (res : Response) (e : GoError)
    (h404 : res.StatusCode ≠ 404) (h : handleResponse u res = .ret (.error e)) :
    errors.Is e .ErrNotFoundError = false := by
  unfold handleResponse at h
  rw [if_neg h404] at h
  repeat' split at h
  all_goals first
    | (simp at h; done)
    | (simp only [Exec.ret.injEq, Except.error.injEq] at h
       subst h
       simp [errors.Is])

/-- `GetPlugin` on a request that is answered and on which `handleResponse`
returns the error `e`. -/
theorem GetPlugin_of_handleResponse_error {P : Type} (zero : P) (u : JsonUnmarshal)
    (decode : List Nat → Except GoError P) (net : Network) (pluginID repoURL : String)
    (res : Response) (e : GoError) (hnet : net repoURL ["repo", pluginID] = .ok res)
    (h : handleResponse u res = .ret (.error e)) :
    GetPlugin zero u decode net pluginID repoURL =
      .ret (zero,
        if errors.Is e .ErrNotFoundError then
          some (.wrapf "failed to find requested plugin, check if the plugin ID is correct" e)
        else some (.wrapf "failed to send request" e)) := by
  simp only [GetPlugin, sendRequestGetBytes, sendRequest, hnet, h, errutil.Wrap, Option.map]
  split <;> rfl

/-- Outside 2xx and 4xx `handleResponse` returns the generic status error. -/
theorem handleResponse_other_status (u : JsonUnmarshal) (res : Response)
    (h2 : ¬ (200 ≤ res.StatusCode ∧ res.StatusCode ≤ 299))
    (h4 : ¬ (400 ≤ res.StatusCode ∧ res.StatusCode ≤ 499)) :
    handleResponse u res =
      .ret (.error (.errorf ("API returned invalid status: " ++ res.Status))) := by
  have h2' : ¬ res.StatusCode.tdiv 100 = 2 := fun h => h2 ((tdiv_hundred_eq_two _).1 h)
  have h4' : ¬ res.StatusCode.tdiv 100 = 4 := fun h => h4 ((tdiv_hundred_eq_four _).1 h)
  have hne : res.StatusCode ≠ 404 := by omega
  simp [handleResponse, hne, h2', h4']

/-! ## The claims -/

set_option maxRecDepth 100000 in
/-- C1 (the code does not keep the bound).  Three consecutive buffer-size
faults followed by a clean answer: the call does not stop with the corruption
error after the third fault but sends a fourth request and returns success;
and when every request meets the fault, the call returns for no amount of
fuel. -/
theorem C1_fourth_request_after_three_faults :
    DownloadFile (envBrokenThenClean 3 makeslice emptyZip)
        "https://grafana.com/api/plugins/example/versions/1.0.0/download" "" 4 freshWorld
      = some (.ret none,
          { retryCount := 0
            tmpFile := { name := "grafana-plugin.zip", content := emptyZip, offset := 22 }
            requests := 4 })
    ∧ ∀ fuel, DownloadFile envAlwaysBroken
        "https://grafana.com/api/plugins/example/versions/1.0.0/download" "" fuel freshWorld
          = none := by
  refine ⟨by decide, fun fuel => ?_⟩
  have hp : (Attempt.broken [1, 2, 3, 4] 2 makeslice).Panics rejectAll makeslice := by decide
  exact DownloadFile_never_returns _ _ _ rfl (fun _ => ⟨makeslice, hp, rfl, rfl⟩) fuel _

set_option maxRecDepth 100000 in
/-- C2, counterexample.  The expected checksum is the upper-case spelling of
the digest of the streamed archive (it equals the computed digest once letter
case is folded), yet the download is rejected with the mismatch error. -/
theorem C2_uppercase_checksum_rejected :
    "76CDB2BAD9582D23C1F6F4D868218D6C".data.map Char.toLower = (hex (md5.Sum emptyZip)).data ∧
    DownloadFile (envBrokenThenClean 0 makeslice emptyZip)
        "https://grafana.com/api/plugins/example/versions/1.0.0/download"
        "76CDB2BAD9582D23C1F6F4D868218D6C" 1 freshWorld
      = some (.ret (some (.errorf
          "expected MD5 checksum does not match the downloaded archive - please contact security@grafana.com")),
          { retryCount := 0
            tmpFile := { name := "grafana-plugin.zip", content := emptyZip, offset := 22 }
            requests := 1 }) := by
  decide

/-- C2, as amended.  For a remote download streamed to its end and a
non-empty expected checksum, the comparison is exact string equality with the
lowercase hexadecimal MD5 digest: the call returns success when the two are
equal and the mismatch error in every other case, a difference in letter case
included. -/
theorem C2_checksum_compared_exactly (env : Env) (url checksum : String) (fuel : Nat)
    (w : World) (body : List Nat) (hstat : env.stat url = none)
    (hc : (env.attempts w.requests).Completes env.unmarshal body) (hne : checksum ≠ "") :
    DownloadFile env url checksum (fuel + 1) w =
      some (if checksum = hex (md5.Sum body) then .ret none
        else .ret (some (.errorf
          "expected MD5 checksum does not match the downloaded archive - please contact security@grafana.com")),
        { retryCount := 0, tmpFile := w.tmpFile.Write body, requests := w.requests + 1 }) := by
  rw [DownloadFile_of_completes env url checksum fuel w body hstat hc]
  by_cases h : checksum = hex (md5.Sum body) <;> simp [h, hne]

set_option maxRecDepth 100000 in
/-- Witness of C2 as amended: the lowercase digest is accepted. -/
theorem C2_checksum_compared_exactly_witness :
    DownloadFile (envBrokenThenClean 0 makeslice emptyZip)
        "https://grafana.com/api/plugins/example/versions/1.0.0/download"
        "76cdb2bad9582d23c1f6f4d868218d6c" 1 freshWorld
      = some (if "76cdb2bad9582d23c1f6f4d868218d6c" = hex (md5.Sum emptyZip) then .ret none
        else .ret (some (.errorf
          "expected MD5 checksum does not match the downloaded archive - please contact security@grafana.com")),
        { retryCount := 0, tmpFile := freshWorld.tmpFile.Write emptyZip, requests := 0 + 1 }) :=
  C2_checksum_compared_exactly (envBrokenThenClean 0 makeslice emptyZip)
    "https://grafana.com/api/plugins/example/versions/1.0.0/download"
    "76cdb2bad9582d23c1f6f4d868218d6c" 0 freshWorld emptyZip rfl ⟨rfl, rfl, rfl⟩ (by decide)

/-- C3.  For a remote download whose stream copy and flush complete, the call
returns after that single pass; the error it returns is non-nil exactly when
the expected checksum is non-empty and differs from the lowercase hexadecimal
MD5 digest of the streamed bytes; the streamed bytes are what is written to
the destination, so that a destination that was empty holds exactly those
bytes and has the computed digest. -/
theorem C3_error_iff_checksum_mismatch (env : Env) (url checksum : String) (fuel : Nat)
    (w : World) (body : List Nat) (hstat : env.stat url = none)
    (hc : (env.attempts w.requests).Completes env.unmarshal body) :
    ∃ err, DownloadFile env url checksum (fuel + 1) w =
        some (.ret err,
          { retryCount := 0, tmpFile := w.tmpFile.Write body, requests := w.requests + 1 }) ∧
      (err ≠ none ↔ (checksum ≠ "" ∧ checksum ≠ hex (md5.Sum body))) ∧
      (w.tmpFile.content = [] → w.tmpFile.offset = 0 →
        (w.tmpFile.Write body).content = body ∧
          hex (md5.Sum (w.tmpFile.Write body).content) = hex (md5.Sum body)) := by
  have hfile : w.tmpFile.content = [] → w.tmpFile.offset = 0 →
      (w.tmpFile.Write body).content = body ∧
        hex (md5.Sum (w.tmpFile.Write body).content) = hex (md5.Sum body) := by
    intro h1 h2
    have : (w.tmpFile.Write body).content = body := by simp [TmpFile.Write, h1, h2]
    exact ⟨this, by rw [this]⟩
  rw [DownloadFile_of_completes env url checksum fuel w body hstat hc]
  by_cases hm : checksum ≠ "" ∧ checksum ≠ hex (md5.Sum body)
  · exact ⟨_, by rw [if_pos hm], by simpa using hm, hfile⟩
  · exact ⟨none, by rw [if_neg hm], by simpa using hm, hfile⟩

set_option maxRecDepth 100000 in
/-- Witness of C3: an empty zip archive downloaded with its own digest as
the expected checksum. -/
theorem C3_error_iff_checksum_mismatch_witness :
    ∃ err, DownloadFile (envBrokenThenClean 0 makeslice emptyZip)
        "https://grafana.com/api/plugins/example/versions/1.0.0/download"
        "76cdb2bad9582d23c1f6f4d868218d6c" 1 freshWorld =
        some (.ret err,
          { retryCount := 0, tmpFile := freshWorld.tmpFile.Write emptyZip, requests := 0 + 1 }) ∧
      (err ≠ none ↔ ("76cdb2bad9582d23c1f6f4d868218d6c" ≠ "" ∧
        "76cdb2bad9582d23c1f6f4d868218d6c" ≠ hex (md5.Sum emptyZip))) ∧
      (freshWorld.tmpFile.content = [] → freshWorld.tmpFile.offset = 0 →
        (freshWorld.tmpFile.Write emptyZip).content = emptyZip ∧
          hex (md5.Sum (freshWorld.tmpFile.Write emptyZip).content) = hex (md5.Sum emptyZip)) :=
  C3_error_iff_checksum_mismatch (envBrokenThenClean 0 makeslice emptyZip)
    "https://grafana.com/api/plugins/example/versions/1.0.0/download"
    "76cdb2bad9582d23c1f6f4d868218d6c" 0 freshWorld emptyZip rfl ⟨rfl, rfl, rfl⟩

set_option maxRecDepth 100000 in
/-- C4, counterexample.  The first request breaks with a runtime fault that
is not the buffer-size fault; the call does not propagate it after one
request: it sends a second request and returns success. -/
theorem C4_other_fault_retried_and_swallowed :
    indexFault.text ≠ "runtime error: makeslice: len out of range" ∧
    (fetchOnce rejectAll ((envBrokenThenClean 1 indexFault emptyZip).attempts 0)
        freshWorld.tmpFile "").1 = .fault indexFault ∧
    DownloadFile (envBrokenThenClean 1 indexFault emptyZip)
        "https://grafana.com/api/plugins/example/versions/1.0.0/download" "" 2 freshWorld
      = some (.ret none,
          { retryCount := 0
            tmpFile := { name := "grafana-plugin.zip", content := emptyZip, offset := 22 }
            requests := 2 }) := by
  decide

/-- C4, as amended.  A runtime-level fault raised during the first fetch
attempt of a call of `DownloadFile` on a remote source is recovered whatever
its message, the buffer-size fault or any other: once the destination has
been truncated and rewound, the call goes on as a new call on the emptied
destination, one request later, and the outcome of that call is its outcome;
in particular, when the second request streams its body to the end and the
checksum is empty or matches, the call returns success after two requests. -/
theorem C4_any_fault_recovered_and_retried (env : Env) (url checksum : String) (fuel : Nat)
    (w : World) (r : PanicValue) (hstat : env.stat url = none)
    (hp : (env.attempts w.requests).Panics env.unmarshal r)
    (hr : (env.attempts w.requests).Resets) :
    DownloadFile env url checksum (fuel + 1) w =
      DownloadFile env url checksum fuel
        { retryCount := 1, tmpFile := { name := w.tmpFile.name, content := [], offset := 0 },
          requests := w.requests + 1 } ∧
    ∀ body, (env.attempts (w.requests + 1)).Completes env.unmarshal body →
      (checksum = "" ∨ checksum = hex (md5.Sum body)) →
      DownloadFile env url checksum (fuel + 2) w =
        some (.ret none,
          { retryCount := 0
            tmpFile := { name := w.tmpFile.name, content := body, offset := body.length }
            requests := w.requests + 2 }) := by
  refine ⟨DownloadFile_recover_step env url checksum fuel w r hstat hp hr, ?_⟩
  intro body hc hsum
  rw [DownloadFile_recover_step env url checksum (fuel + 1) w r hstat hp hr,
    DownloadFile_of_completes env url checksum fuel _ body hstat hc, TmpFile.Write_fresh]
  have hm : ¬ (checksum ≠ "" ∧ checksum ≠ hex (md5.Sum body)) := by
    rcases hsum with h | h <;> simp [h]
  rw [if_neg hm]

/-- Witness of C4 as amended: an index fault on the first request, a clean
second request. -/
theorem C4_any_fault_recovered_and_retried_witness :
    DownloadFile (envBrokenThenClean 1 indexFault emptyZip) "https://example.org/p.zip" ""
        (0 + 1) freshWorld =
      DownloadFile (envBrokenThenClean 1 indexFault emptyZip) "https://example.org/p.zip" "" 0
        { retryCount := 1
          tmpFile := { name := freshWorld.tmpFile.name, content := [], offset := 0 }
          requests := freshWorld.requests + 1 } ∧
    ∀ body, ((envBrokenThenClean 1 indexFault emptyZip).attempts
        (freshWorld.requests + 1)).Completes
          (envBrokenThenClean 1 indexFault emptyZip).unmarshal body →
      (("" : String) = "" ∨ "" = hex (md5.Sum body)) →
      DownloadFile (envBrokenThenClean 1 indexFault emptyZip) "https://example.org/p.zip" ""
          (0 + 2) freshWorld =
        some (.ret none,
          { retryCount := 0
            tmpFile := { name := freshWorld.tmpFile.name, content := body, offset := body.length }
            requests := freshWorld.requests + 2 }) :=
  C4_any_fault_recovered_and_retried (envBrokenThenClean 1 indexFault emptyZip)
    "https://example.org/p.zip" "" 0 freshWorld indexFault rfl
    (by decide) (by decide)

/-- C5, counterexample.  A 400 answer whose body is the JSON object with the
single member `message` holding the empty string: the error does not carry
that (empty) string as its message but the raw body text. -/
theorem C5_empty_message_replaced_by_body :
    decodeKnown (goBytes "\x7b\"message\": \"\"\x7d") = some [("message", "")] ∧
    handleResponse decodeKnown (answer 400 "400 Bad Request" "\x7b\"message\": \"\"\x7d")
      = .ret (.error (.BadRequestError "\x7b\"message\": \"\"\x7d" "400 Bad Request")) ∧
    handleResponse decodeKnown (answer 400 "400 Bad Request" "\x7b\"message\": \"\"\x7d")
      ≠ .ret (.error (.BadRequestError "" "400 Bad Request")) := by
  decide

/-- C5, as amended.  For a response with a 4xx status other than 404 whose
body is read to its end, is not empty and decodes (as a JSON object of string
members) to a map: when the `message` member holds a non-empty string X,
`handleResponse` returns no stream and the bad-request error whose Message is
X and whose Status is the status line of the response; when the `message`
member is absent or holds the empty string, the Message is the raw body text
instead, with the same Status. -/
theorem C5_message_taken_from_json (u : JsonUnmarshal) (res : Response) (body : List Nat)
    (jsonBody : List (String × String))
    (h4 : 400 ≤ res.StatusCode ∧ res.StatusCode ≤ 499) (h404 : res.StatusCode ≠ 404)
    (hbody : res.Body = { data := body, ending := .eof }) (hne : body ≠ [])
    (hjson : u body = some jsonBody) :
    (∀ X, jsonBody.lookup "message" = some X → X ≠ "" →
      handleResponse u res = .ret (.error (.BadRequestError X res.Status))) ∧
    (jsonBody.lookup "message" = none ∨ jsonBody.lookup "message" = some "" →
      handleResponse u res = .ret (.error (.BadRequestError (goString body) res.Status))) := by
  have h4' : res.StatusCode.tdiv 100 = 4 := (tdiv_hundred_eq_four _).2 h4
  constructor
  · intro X hX hXne
    have hm : messageOf jsonBody = X := by simp [messageOf, hX]
    have hlen : ¬ X.length = 0 := by
      have := (length_pos_iff_ne_empty X).2 hXne
      omega
    simp [handleResponse, h404, h4', hbody, ioutil.ReadAll, hne, hjson, hm, hlen]
  · intro hX
    have hm : messageOf jsonBody = "" := by
      rcases hX with h | h <;> simp [messageOf, h]
    simp [handleResponse, h404, h4', hbody, ioutil.ReadAll, hne, hjson, hm]

/-- Witness of C5 as amended: 400 answers with the message `Invalid version`,
with an empty message, and with no member `message` at all. -/
theorem C5_message_taken_from_json_witness :
    handleResponse decodeKnown
        (answer 400 "400 Bad Request" "\x7b\"message\": \"Invalid version\"\x7d")
      = .ret (.error (.BadRequestError "Invalid version" "400 Bad Request")) ∧
    handleResponse decodeKnown (answer 400 "400 Bad Request" "\x7b\"message\": \"\"\x7d")
      = .ret (.error (.BadRequestError "\x7b\"message\": \"\"\x7d" "400 Bad Request")) ∧
    handleResponse decodeNoMessage
        (answer 403 "403 Forbidden" "\x7b\"error\": \"denied\"\x7d")
      = .ret (.error (.BadRequestError "\x7b\"error\": \"denied\"\x7d" "403 Forbidden")) :=
  ⟨((C5_message_taken_from_json decodeKnown
      (answer 400 "400 Bad Request" "\x7b\"message\": \"Invalid version\"\x7d")
      (goBytes "\x7b\"message\": \"Invalid version\"\x7d") [("message", "Invalid version")]
      (by decide) (by decide) rfl (by decide) (by decide)).1 "Invalid version"
      (by decide) (by decide)).trans (by decide),
   ((C5_message_taken_from_json decodeKnown
      (answer 400 "400 Bad Request" "\x7b\"message\": \"\"\x7d")
      (goBytes "\x7b\"message\": \"\"\x7d") [("message", "")]
      (by decide) (by decide) rfl (by decide) (by decide)).2
      (Or.inr (by decide))).trans (by decide),
   ((C5_message_taken_from_json decodeNoMessage
      (answer 403 "403 Forbidden" "\x7b\"error\": \"denied\"\x7d")
      (goBytes "\x7b\"error\": \"denied\"\x7d") [("error", "denied")]
      (by decide) (by decide) rfl (by decide) (by decide)).2
      (Or.inl (by decide))).trans (by decide)⟩

/-- C6.  For a response with a 4xx status other than 404 whose body, read to
its end, is empty or is rejected by the JSON decoder, `handleResponse` returns
no stream and the bad-request error whose Message is the raw body text and
whose Status is the status line of the response. -/
theorem C6_raw_body_when_not_json (u : JsonUnmarshal) (res : Response) (body : List Nat)
    (h4 : 400 ≤ res.StatusCode ∧ res.StatusCode ≤ 499) (h404 : res.StatusCode ≠ 404)
    (hbody : res.Body = { data := body, ending := .eof })
    (hbad : body = [] ∨ u body = none) :
    handleResponse u res = .ret (.error (.BadRequestError (goString body) res.Status)) := by
  have h4' : res.StatusCode.tdiv 100 = 4 := (tdiv_hundred_eq_four _).2 h4
  by_cases hne : body = []
  · subst hne
    simp [handleResponse, h404, h4', hbody, ioutil.ReadAll, goString]
  · have hu : u body = none := hbad.resolve_left hne
    simp [handleResponse, h404, h4', hbody, ioutil.ReadAll, hne, hu]

/-- Witness of C6: a 403 answer with a plain-text body. -/
theorem C6_raw_body_when_not_json_witness :
    handleResponse decodeKnown (answer 403 "403 Forbidden" "access denied")
      = .ret (.error (.BadRequestError (goString (goBytes "access denied"))
          (answer 403 "403 Forbidden" "access denied").Status)) :=
  C6_raw_body_when_not_json decodeKnown (answer 403 "403 Forbidden" "access denied")
    (goBytes "access denied") (by decide) (by decide) rfl (Or.inr (by decide))

/-- C7.  A 404 response is answered by `handleResponse` with the sentinel
`ErrNotFoundError`, whatever its body; `GetPlugin` turns it into the error
"failed to find requested plugin, check if the plugin ID is correct", which
still wraps the sentinel.  Every other failure is kept apart from it: on a
response whose status is not 404 an error of `handleResponse` never is nor
wraps the sentinel, and `GetPlugin` reports it as "failed to send request"
(for a status outside 2xx and 4xx, around the generic status error); so does
it report every failure of the request that is not the sentinel (nor wraps
it); and the "failed to send request" error then does not wrap the
sentinel. -/
theorem C7_not_found_kept_apart {P : Type} (zero : P) (u : JsonUnmarshal)
    (decode : List Nat → Except GoError P) (net : Network) (pluginID repoURL : String) :
    (∀ res : Response, res.StatusCode = 404 →
      handleResponse u res = .ret (.error .ErrNotFoundError)) ∧
    (∀ res : Response, net repoURL ["repo", pluginID] = .ok res → res.StatusCode = 404 →
      GetPlugin zero u decode net pluginID repoURL =
        .ret (zero, some (.wrapf
          "failed to find requested plugin, check if the plugin ID is correct"
          .ErrNotFoundError))) ∧
    errors.Is (.wrapf "failed to find requested plugin, check if the plugin ID is correct"
      .ErrNotFoundError) .ErrNotFoundError = true ∧
    (∀ body err, sendRequestGetBytes u (net repoURL ["repo", pluginID]) = .ret (body, some err) →
      errors.Is err .ErrNotFoundError = false →
      GetPlugin zero u decode net pluginID repoURL =
          .ret (zero, some (.wrapf "failed to send request" err)) ∧
        errors.Is (.wrapf "failed to send request" err) .ErrNotFoundError = false) ∧
    (∀ (res : Response) (e : GoError), res.StatusCode ≠ 404 →
      handleResponse u res = .ret (.error e) → errors.Is e .ErrNotFoundError = false) ∧
    (∀ (res : Response) (e : GoError), net repoURL ["repo", pluginID] = .ok res →
      res.StatusCode ≠ 404 → handleResponse u res = .ret (.error e) →
      GetPlugin zero u decode net pluginID repoURL =
          .ret (zero, some (.wrapf "failed to send request" e)) ∧
        errors.Is (.wrapf "failed to send request" e) .ErrNotFoundError = false) ∧
    (∀ res : Response, net repoURL ["repo", pluginID] = .ok res →
      ¬ (200 ≤ res.StatusCode ∧ res.StatusCode ≤ 299) →
      ¬ (400 ≤ res.StatusCode ∧ res.StatusCode ≤ 499) →
      GetPlugin zero u decode net pluginID repoURL =
        .ret (zero, some (.wrapf "failed to send request"
          (.errorf ("API returned invalid status: " ++ res.Status))))) := by
  have h404 : ∀ res : Response, res.StatusCode = 404 →
      handleResponse u res = .ret (.error .ErrNotFoundError) := by
    intro res h
    simp [handleResponse, h]
  have hkept : ∀ (res : Response) (e : GoError), net repoURL ["repo", pluginID] = .ok res →
      res.StatusCode ≠ 404 → handleResponse u res = .ret (.error e) →
      GetPlugin zero u decode net pluginID repoURL =
          .ret (zero, some (.wrapf "failed to send request" e)) ∧
        errors.Is (.wrapf "failed to send request" e) .ErrNotFoundError = false := by
    intro res e hnet hcode he
    have hne := handleResponse_error_not_sentinel u res e hcode he
    rw [GetPlugin_of_handleResponse_error zero u decode net pluginID repoURL res e hnet he]
    simp [hne, errors.Is]
  refine ⟨h404, ?_, by simp [errors.Is], ?_, handleResponse_error_not_sentinel u, hkept, ?_⟩
  · intro res hnet hcode
    simp [GetPlugin, sendRequestGetBytes, sendRequest, hnet, h404 res hcode, errors.Is,
      errutil.Wrap]
  · intro body err hsend his
    simp [GetPlugin, hsend, his, errutil.Wrap, errors.Is]
  · intro res hnet h2 h4
    have hne : res.StatusCode ≠ 404 := by omega
    exact (hkept res _ hnet hne (handleResponse_other_status u res h2 h4)).1

/-- Witness of C7: an unknown plugin ID against a registry that answers 404;
a known one on a network where no request goes through; a registry that
answers 500; a registry that answers 403. -/
theorem C7_not_found_kept_apart_witness :
    GetPlugin (0 : Nat) rejectAll (fun _ => .ok 1) registry "no-such-plugin"
        "https://grafana.com/api/plugins"
      = .ret (0, some (.wrapf
          "failed to find requested plugin, check if the plugin ID is correct"
          .ErrNotFoundError)) ∧
    GetPlugin (0 : Nat) rejectAll (fun _ => .ok 1) unreachable "grafana-clock-panel"
        "https://grafana.com/api/plugins"
      = .ret (0, some (.wrapf "failed to send request"
          (.errorf "dial tcp: lookup grafana.com: no such host"))) ∧
    GetPlugin (0 : Nat) rejectAll (fun _ => .ok 1) registryDown "grafana-clock-panel"
        "https://grafana.com/api/plugins"
      = .ret (0, some (.wrapf "failed to send request"
          (.errorf "API returned invalid status: 500 Internal Server Error"))) ∧
    GetPlugin (0 : Nat) rejectAll (fun _ => .ok 1) registryForbidden "grafana-clock-panel"
        "https://grafana.com/api/plugins"
      = .ret (0, some (.wrapf "failed to send request"
          (.BadRequestError "access denied" "403 Forbidden"))) :=
  ⟨(C7_not_found_kept_apart (0 : Nat) rejectAll (fun _ => .ok 1) registry "no-such-plugin"
      "https://grafana.com/api/plugins").2.1 (answer 404 "404 Not Found" "Not Found")
      (by decide) (by decide),
   ((C7_not_found_kept_apart (0 : Nat) rejectAll (fun _ => .ok 1) unreachable
      "grafana-clock-panel" "https://grafana.com/api/plugins").2.2.2.1 []
      (.errorf "dial tcp: lookup grafana.com: no such host") (by decide) (by decide)).1,
   ((C7_not_found_kept_apart (0 : Nat) rejectAll (fun _ => .ok 1) registryDown
      "grafana-clock-panel" "https://grafana.com/api/plugins").2.2.2.2.2.2
      (answer 500 "500 Internal Server Error" "") (by decide) (by decide) (by decide)).trans
      (by decide),
   ((C7_not_found_kept_apart (0 : Nat) rejectAll (fun _ => .ok 1) registryForbidden
      "grafana-clock-panel" "https://grafana.com/api/plugins").2.2.2.2.2.1
      (answer 403 "403 Forbidden" "access denied")
      (.BadRequestError "access denied" "403 Forbidden") (by decide) (by decide)
      (by decide)).1⟩

/-- C8.  `handleResponse` returns a stream exactly when the status is 2xx,
and the stream is then the response body, untouched, with no error; for every
status that is neither 2xx nor 4xx it returns no stream and the error
"API returned invalid status: " followed by the raw status line, which is
neither the not-found sentinel nor a bad-request error. -/
theorem C8_status_classification (u : JsonUnmarshal) (res : Response) :
    ((∃ stream, handleResponse u res = .ret (.ok stream)) ↔
      (200 ≤ res.StatusCode ∧ res.StatusCode ≤ 299)) ∧
    ((200 ≤ res.StatusCode ∧ res.StatusCode ≤ 299) →
      handleResponse u res = .ret (.ok res.Body)) ∧
    (¬ (200 ≤ res.StatusCode ∧ res.StatusCode ≤ 299) →
      ¬ (400 ≤ res.StatusCode ∧ res.StatusCode ≤ 499) →
      handleResponse u res =
          .ret (.error (.errorf ("API returned invalid status: " ++ res.Status))) ∧
        handleResponse u res ≠ .ret (.error .ErrNotFoundError) ∧
        ∀ m s, handleResponse u res ≠ .ret (.error (.BadRequestError m s))) := by
  have h2xx : (200 ≤ res.StatusCode ∧ res.StatusCode ≤ 299) →
      handleResponse u res = .ret (.ok res.Body) := by
    intro h
    have h2 : res.StatusCode.tdiv 100 = 2 := (tdiv_hundred_eq_two _).2 h
    have hne : res.StatusCode ≠ 404 := by omega
    simp [handleResponse, hne, h2]
  have hother : ¬ (200 ≤ res.StatusCode ∧ res.StatusCode ≤ 299) →
      ¬ (400 ≤ res.StatusCode ∧ res.StatusCode ≤ 499) →
      handleResponse u res =
        .ret (.error (.errorf ("API returned invalid status: " ++ res.Status))) := by
    intro h2 h4
    have h2' : ¬ res.StatusCode.tdiv 100 = 2 := fun h => h2 ((tdiv_hundred_eq_two _).1 h)
    have h4' : ¬ res.StatusCode.tdiv 100 = 4 := fun h => h4 ((tdiv_hundred_eq_four _).1 h)
    have hne : res.StatusCode ≠ 404 := by omega
    simp [handleResponse, hne, h2', h4']
  refine ⟨⟨?_, fun h => ⟨_, h2xx h⟩⟩, h2xx, fun h2 h4 => ?_⟩
  · rintro ⟨stream, hs⟩
    by_contra h2
    by_cases h4 : 400 ≤ res.StatusCode ∧ res.StatusCode ≤ 499
    · have h4' : res.StatusCode.tdiv 100 = 4 := (tdiv_hundred_eq_four _).2 h4
      unfold handleResponse at hs
      simp only [h4'] at hs
      repeat' split at hs
      all_goals first
        | (simp at hs; done)
        | (rename_i h; exact h trivial)
    · rw [hother h2 h4] at hs
      simp at hs
  · rw [hother h2 h4]
    simp

/-- Witness of C8: a 200 answer yields its body, a 503 answer the generic
error with its status line. -/
theorem C8_status_classification_witness :
    handleResponse rejectAll (answer 200 "200 OK" "PK")
      = .ret (.ok (answer 200 "200 OK" "PK").Body) ∧
    handleResponse rejectAll (answer 503 "503 Service Unavailable" "")
      = .ret (.error (.errorf ("API returned invalid status: "
          ++ (answer 503 "503 Service Unavailable" "").Status))) :=
  ⟨(C8_status_classification rejectAll (answer 200 "200 OK" "PK")).2.1 (by decide),
   ((C8_status_classification rejectAll (answer 503 "503 Service Unavailable" "")).2.2
      (by decide) (by decide)).1⟩

/-- C9.  When the source location names an existing local file that can be
opened and copied, the call returns success whatever the expected checksum;
the bytes written to the destination are the contents of the file (an empty
destination then holds exactly those contents); no request is sent and the
retry counter is not touched. -/
theorem C9_local_file_copied_verbatim (env : Env) (url checksum : String) (fuel : Nat)
    (w : World) (lf : LocalFile) (hstat : env.stat url = some lf)
    (hopen : lf.openErr = none) (hcopy : lf.copyErr = none) :
    DownloadFile env url checksum (fuel + 1) w =
      some (.ret none,
        { retryCount := w.retryCount, tmpFile := w.tmpFile.Write lf.data,
          requests := w.requests }) ∧
    (w.tmpFile.content = [] → w.tmpFile.offset = 0 →
      (w.tmpFile.Write lf.data).content = lf.data) := by
  constructor
  · rw [DownloadFile]
    simp [hstat, copyLocal, hopen, hcopy]
  · intro h1 h2
    simp [TmpFile.Write, h1, h2]

/-- Witness of C9: a local archive downloaded with an expected checksum that
is not its digest. -/
theorem C9_local_file_copied_verbatim_witness :
    DownloadFile envLocalArchive "/tmp/grafana-clock-panel.zip"
        "00000000000000000000000000000000" (0 + 1) freshWorld =
      some (.ret none,
        { retryCount := freshWorld.retryCount, tmpFile := freshWorld.tmpFile.Write emptyZip,
          requests := freshWorld.requests }) ∧
    (freshWorld.tmpFile.content = [] → freshWorld.tmpFile.offset = 0 →
      (freshWorld.tmpFile.Write emptyZip).content = emptyZip) :=
  C9_local_file_copied_verbatim envLocalArchive "/tmp/grafana-clock-panel.zip"
    "00000000000000000000000000000000" 0 freshWorld
    { openErr := none, data := emptyZip, copyErr := none } (by simp [envLocalArchive]) rfl rfl

/-- C10.  For a remote download: (1) whenever the call returns success
after more than one request, hence after one or more passes cut by a panic
and recovered, the last pass streamed its body to the end and the destination
holds exactly that body, the offset standing at its end, with nothing left of
what earlier passes wrote; (2) such calls do return: if the first `k` passes
(`k` at least one) are cut by a panic, each followed by a successful truncate
and rewind, and the next pass streams `body` to its end with an acceptable
checksum, then `k + 1` units of fuel or more give success with the
destination holding `body`; (3) if instead that next pass is cut by a panic
and the truncate, or the rewind, fails with `e`, the call returns `e` and has
sent no request beyond that pass. -/
theorem C10_retry_resets_destination (env : Env) (url checksum : String) (w : World)
    (hstat : env.stat url = none) :
    (∀ fuel W, DownloadFile env url checksum fuel w = some (.ret none, W) →
      w.requests + 2 ≤ W.requests →
      ∃ body, (env.attempts (W.requests - 1)).Completes env.unmarshal body ∧
        W.tmpFile = { name := w.tmpFile.name, content := body, offset := body.length }) ∧
    (∀ fuel k,
      (∀ i, i < k → ∃ r, (env.attempts (w.requests + i)).Panics env.unmarshal r ∧
        (env.attempts (w.requests + i)).Resets) →
      (∀ body, 1 ≤ k → (env.attempts (w.requests + k)).Completes env.unmarshal body →
        (checksum = "" ∨ checksum = hex (md5.Sum body)) →
        DownloadFile env url checksum (fuel + (k + 1)) w =
          some (.ret none,
            { retryCount := 0
              tmpFile := { name := w.tmpFile.name, content := body, offset := body.length }
              requests := w.requests + (k + 1) })) ∧
      (∀ r e, (env.attempts (w.requests + k)).Panics env.unmarshal r →
        (env.attempts (w.requests + k)).truncateErr = some e →
        ∃ f, DownloadFile env url checksum (fuel + (k + 1)) w =
          some (.ret (some e),
            { retryCount := 1, tmpFile := f, requests := w.requests + (k + 1) })) ∧
      (∀ r e, (env.attempts (w.requests + k)).Panics env.unmarshal r →
        (env.attempts (w.requests + k)).truncateErr = none →
        (env.attempts (w.requests + k)).seekErr = some e →
        ∃ f, DownloadFile env url checksum (fuel + (k + 1)) w =
          some (.ret (some e),
            { retryCount := 1, tmpFile := f, requests := w.requests + (k + 1) }))) := by
  constructor
  · intro fuel W h hreq
    rcases DownloadFile_success_shape env url checksum hstat fuel w W h with ⟨h1, _⟩ | ⟨_, h2⟩
    · omega
    · exact h2
  intro fuel k hfaults
  cases k with
  | zero =>
    refine ⟨fun _ h => absurd h (by omega), fun r e hp ht => ?_, fun r e hp ht hs => ?_⟩
    · exact ⟨_, DownloadFile_truncate_fails env url checksum fuel w r e hstat hp ht⟩
    · exact ⟨_, DownloadFile_seek_fails env url checksum fuel w r e hstat hp ht hs⟩
  | succ n =>
    have e1 : fuel + (n + 1 + 1) = (fuel + 1) + (n + 1) := by omega
    have hchain := DownloadFile_recover_chain env url checksum hstat (fuel + 1) n w hfaults
    rw [e1, hchain]
    refine ⟨fun body _ hc hsum => ?_, fun r e hp ht => ?_, fun r e hp ht hs => ?_⟩
    · rw [DownloadFile_of_completes env url checksum fuel _ body hstat hc, TmpFile.Write_fresh]
      have hm : ¬ (checksum ≠ "" ∧ checksum ≠ hex (md5.Sum body)) := by
        rcases hsum with h | h <;> simp [h]
      rw [if_neg hm]
      rfl
    · exact ⟨_, DownloadFile_truncate_fails env url checksum fuel _ r e hstat hp ht⟩
    · exact ⟨_, DownloadFile_seek_fails env url checksum fuel _ r e hstat hp ht hs⟩

/-- Witness of C10: two requests break after two bytes each have been
written, the third serves an empty zip archive, which is all the destination
holds in the end. -/
theorem C10_retry_resets_destination_witness :
    DownloadFile (envBrokenThenClean 2 makeslice emptyZip) "https://example.org/p.zip" ""
        (0 + (2 + 1)) freshWorld =
      some (.ret none,
        { retryCount := 0
          tmpFile := { name := freshWorld.tmpFile.name, content := emptyZip,
                       offset := emptyZip.length }
          requests := freshWorld.requests + (2 + 1) }) :=
  ((C10_retry_resets_destination (envBrokenThenClean 2 makeslice emptyZip)
    "https://example.org/p.zip" "" freshWorld rfl).2 0 2
    (fun i hi => ⟨makeslice, by
      have ha : (envBrokenThenClean 2 makeslice emptyZip).attempts (freshWorld.requests + i)
          = Attempt.broken [1, 2, 3, 4] 2 makeslice := by
        simp [envBrokenThenClean, freshWorld, hi]
      rw [ha]
      exact ⟨by decide, by decide⟩⟩)).1 emptyZip (by decide) (by decide)
    (Or.inl rfl)

/-- C11.  `Response4xxError.Error` renders one of three shapes, decided by
which of Message and SystemInfo are empty: the message followed by the system
information in parentheses when both are non-empty (the status code does not
appear); the decimal status code, a colon and the message when the message is
non-empty and the system information empty; the decimal status code alone
when the message is empty, whatever the system information.  The three cases
cover every value and exclude one another. -/
theorem C11_error_three_shapes (e : Response4xxError) :
    (e.Message ≠ "" → e.SystemInfo ≠ "" →
      e.Error = e.Message ++ " (" ++ e.SystemInfo ++ ")") ∧
    (e.Message ≠ "" → e.SystemInfo = "" →
      e.Error = fmtDecimal e.StatusCode ++ ": " ++ e.Message) ∧
    (e.Message = "" → e.Error = fmtDecimal e.StatusCode) ∧
    ((e.Message ≠ "" ∧ e.SystemInfo ≠ "") ∨ (e.Message ≠ "" ∧ e.SystemInfo = "") ∨
      e.Message = "") := by
  refine ⟨fun hm hs => ?_, fun hm hs => ?_, fun hm => ?_, ?_⟩
  · have h1 := (length_pos_iff_ne_empty e.Message).2 hm
    have h2 := (length_pos_iff_ne_empty e.SystemInfo).2 hs
    simp [Response4xxError.Error, h1, h2]
  · have h1 := (length_pos_iff_ne_empty e.Message).2 hm
    simp [Response4xxError.Error, h1, hs]
  · simp [Response4xxError.Error, hm]
  · by_cases hm : e.Message = ""
    · exact Or.inr (Or.inr hm)
    · by_cases hs : e.SystemInfo = ""
      · exact Or.inr (Or.inl ⟨hm, hs⟩)
      · exact Or.inl ⟨hm, hs⟩

/-- Witness of C11: the three shapes on a 412 answer. -/
theorem C11_error_three_shapes_witness :
    Response4xxError.Error
        { Message := "Plugin not compatible", StatusCode := 412, SystemInfo := "linux-amd64" }
      = "Plugin not compatible (linux-amd64)" ∧
    Response4xxError.Error
        { Message := "Plugin not compatible", StatusCode := 412, SystemInfo := "" }
      = "412: Plugin not compatible" ∧
    Response4xxError.Error { Message := "", StatusCode := 412, SystemInfo := "linux-amd64" }
      = "412" :=
  ⟨((C11_error_three_shapes
      { Message := "Plugin not compatible", StatusCode := 412, SystemInfo := "linux-amd64" }).1
      (by decide) (by decide)).trans (by decide),
   ((C11_error_three_shapes
      { Message := "Plugin not compatible", StatusCode := 412, SystemInfo := "" }).2.1
      (by decide) rfl).trans (by decide),
   ((C11_error_three_shapes
      { Message := "", StatusCode := 412, SystemInfo := "linux-amd64" }).2.2.1 rfl).trans
      (by decide)⟩

end Grafana
